import Mathlib

/-!
Verification of the particle choreography and gesture engine of the
`shendanshu` interactive 3D holiday-scene visualizer.

The TypeScript sources are shallowly embedded below.  JavaScript numbers are
idealized as real numbers (`ℝ`) where the code computes with square roots or
trigonometric functions, and as rationals (`ℚ`) where only field arithmetic
and comparisons occur.  Randomness (`Math.random()` draws) is made explicit:
every random draw becomes a function argument constrained to `[0, 1)`.

Sources embedded:
 * `src/types.ts`                — enums and records of the data model
 * `src/utils/geometry.ts`       — `generateParticles` (tree-position part) and
                                   `getTargetPosition`
 * `src/components/Particles.tsx`— `detectGesture`, hand pose extraction
                                   (`onResults` callback), the `Scene` gesture
                                   effect and the photo-carousel frame step,
                                   and the per-frame lerp easing
 * `src/components/PhotoCloud.tsx`— `PolaroidFrame` per-frame target resolution
 * `src/constants.ts`            — numeric constants
-/

set_option autoImplicit false

namespace Shendanshu

/-! ## Data model (src/types.ts) -/

/-- `AppState` from src/types.ts: the scene mode. -/
inductive AppState
  | ASSEMBLED
  | SCATTERED
  | FOCUSED
deriving DecidableEq, Repr

/-- `GestureType` from src/types.ts. -/
inductive GestureType
  | NONE
  | FIST
  | OPEN_PALM
  | PINCH
deriving DecidableEq, Repr

/-- three.js `Vector3`, idealized over `ℝ`. -/
structure Vec3 where
  x : ℝ
  y : ℝ
  z : ℝ

/-- The particle visual class (`'SPHERE' | 'CUBE' | 'LIGHT'` in src/types.ts). -/
inductive PType
  | SPHERE
  | CUBE
  | LIGHT
deriving DecidableEq, Repr

/-- `ParticleData` from src/types.ts (the `id` and `color` strings are not
needed by any claim and are omitted; all geometric fields are kept). -/
structure ParticleData where
  initialPos : Vec3
  scatterPos : Vec3
  type : PType
  scale : ℝ

/-- `HandControlState` from src/types.ts. -/
structure HandControlState where
  gesture : GestureType
  position : ℝ × ℝ
  rotation : ℝ

/-! ## Constants (src/constants.ts) -/

def PARTICLE_COUNT : ℕ := 3000

def TREE_HEIGHT : ℝ := 10

def TREE_RADIUS_BASE : ℝ := 4.2

def SCATTER_BOUNDS : ℝ := 22

/-- `FILLER_COUNT` from `generateParticles` in src/utils/geometry.ts. -/
def FILLER_COUNT : ℕ := 1200

/-- `MAIN_COUNT = PARTICLE_COUNT - FILLER_COUNT` from src/utils/geometry.ts. -/
def MAIN_COUNT : ℕ := PARTICLE_COUNT - FILLER_COUNT

/-! ## Layout resolver (src/utils/geometry.ts, `getTargetPosition`) -/

/-- `getTargetPosition` from src/utils/geometry.ts:
returns `particle.scatterPos` in `SCATTERED` or `FOCUSED` mode and
`particle.initialPos` otherwise. -/
def getTargetPosition (particle : ParticleData) (state : AppState) : Vec3 :=
  if state = AppState.SCATTERED ∨ state = AppState.FOCUSED then
    particle.scatterPos
  else
    particle.initialPos

/-! ## Scene mode state machine (src/components/Particles.tsx, `Scene`) -/

/-- The gesture `useEffect` of `Scene` (src/components/Particles.tsx:511-528),
as a function from the current gesture, mode and photo count to the next mode.
The chained branches mirror the source: `FIST` always assembles; `OPEN_PALM`
scatters only from a state that is neither `SCATTERED` nor `FOCUSED`; `PINCH`
focuses only from `SCATTERED` with at least one photo; the trailing separate
`if` re-checks `OPEN_PALM` while `FOCUSED` and scatters (the last `setAppState`
call of the effect wins). -/
def nextAppState (gesture : GestureType) (appState : AppState)
    (photoCount : ℕ) : AppState :=
  let s1 :=
    if gesture = GestureType.FIST then
      AppState.ASSEMBLED
    else if gesture = GestureType.OPEN_PALM then
      if appState ≠ AppState.SCATTERED ∧ appState ≠ AppState.FOCUSED then
        AppState.SCATTERED
      else appState
    else if gesture = GestureType.PINCH then
      if appState = AppState.SCATTERED ∧ 0 < photoCount then
        AppState.FOCUSED
      else appState
    else appState
  if gesture = GestureType.OPEN_PALM ∧ appState = AppState.FOCUSED then
    AppState.SCATTERED
  else s1

/-- One run of the gesture effect on the pair (mode, active photo index).
The effect never calls `setActiveIndex`, so the index component is returned
unchanged (src/components/Particles.tsx:511-528). -/
def gestureUpdate (gesture : GestureType) (appState : AppState)
    (activeIndex : ℤ) (photoCount : ℕ) : AppState × ℤ :=
  (nextAppState gesture appState photoCount, activeIndex)

/-- The photo-switching block of the `Scene` frame callback
(src/components/Particles.tsx:535-555).  Inputs are the current mode, the
photo count, the current `handState.rotation`, the clock time, the
`lastSwitchTime` ref and the current `activeIndex`; outputs are the new
`activeIndex` and the new `lastSwitchTime`.  JavaScript `%` is truncated
remainder, i.e. `Int.tmod`. -/
noncomputable def carouselStep (appState : AppState) (photoCount : ℕ)
    (rot time lastSwitchTime : ℝ) (activeIndex : ℤ) : ℤ × ℝ :=
  if appState = AppState.FOCUSED ∧ 1 < photoCount then
    if 0.8 < time - lastSwitchTime then
      if rot < -0.4 then
        (Int.tmod (activeIndex - 1 + photoCount) photoCount, time)
      else if 0.4 < rot then
        (Int.tmod (activeIndex + 1) photoCount, time)
      else (activeIndex, lastSwitchTime)
    else (activeIndex, lastSwitchTime)
  else (activeIndex, lastSwitchTime)

/-! ## Per-frame easing (src/components/Particles.tsx:46-55,
src/components/PhotoCloud.tsx:161-167)

Per component, `current.lerp(target, step)` is
`current + (target - current) * step` with `step = k * delta`
(particles use `k = 3`, photo panels use `k = 4`). -/

/-- One easing frame: `current.lerp(target, k * dt)` on one component. -/
def easeStep (k dt cur target : ℚ) : ℚ :=
  cur + (target - cur) * (k * dt)

/-- `n` repeated easing frames with the target held fixed and constant `dt`. -/
def easeIter (k dt target cur : ℚ) : ℕ → ℚ
  | 0 => cur
  | n + 1 => easeStep k dt (easeIter k dt target cur n) target

/-- The particle easing rate (`step = 3 * delta`,
src/components/Particles.tsx:47). -/
def particleEaseRate : ℚ := 3

/-- The photo-panel easing rate (`step = 4 * delta`,
src/components/PhotoCloud.tsx:161). -/
def photoEaseRate : ℚ := 4

/-! ## Gesture classifier and hand pose
(src/components/Particles.tsx, `HandController`) -/

/-- One 2D hand landmark (the classifier ignores `z`). -/
structure Pt where
  x : ℝ
  y : ℝ

/-- `Math.hypot(p1.x - p2.x, p1.y - p2.y)`: Euclidean distance of two
landmarks, as used by `detectGesture` (src/components/Particles.tsx:188,198). -/
noncomputable def distPt (p1 p2 : Pt) : ℝ :=
  Real.sqrt ((p1.x - p2.x) ^ 2 + (p1.y - p2.y) ^ 2)

/-- `[isIndexExtended, isMiddleExtended, isRingExtended, isPinkyExtended]
.filter(Boolean).length` from `detectGesture`
(src/components/Particles.tsx:201-206): a non-thumb finger counts as extended
when its tip-to-wrist distance exceeds its PIP-to-wrist distance by more
than 0.05. -/
noncomputable def extendedCount (l : Fin 21 → Pt) : ℕ :=
  (if distPt (l 8) (l 0) > distPt (l 6) (l 0) + 0.05 then 1 else 0) +
  (if distPt (l 12) (l 0) > distPt (l 10) (l 0) + 0.05 then 1 else 0) +
  (if distPt (l 16) (l 0) > distPt (l 14) (l 0) + 0.05 then 1 else 0) +
  (if distPt (l 20) (l 0) > distPt (l 18) (l 0) + 0.05 then 1 else 0)

/-- `detectGesture` (src/components/Particles.tsx:171-217): the pinch test on
thumb tip (4) and index tip (8) runs first; otherwise the extended-finger
count decides between `OPEN_PALM` (≥ 3), `FIST` (≤ 1) and `NONE`. -/
noncomputable def detectGesture (l : Fin 21 → Pt) : GestureType :=
  if distPt (l 4) (l 8) < 0.05 then GestureType.PINCH
  else if 3 ≤ extendedCount l then GestureType.OPEN_PALM
  else if extendedCount l ≤ 1 then GestureType.FIST
  else GestureType.NONE

/-- The palm-position mapping of the `onResults` callback
(src/components/Particles.tsx:248-254): landmark 9 (middle-finger MCP),
mapped by `(1 - v) * 2 - 1` on both coordinates. -/
def handPosition (l : Fin 21 → Pt) : ℝ × ℝ :=
  ((1 - (l 9).x) * 2 - 1, (1 - (l 9).y) * 2 - 1)

/-- JavaScript `Math.atan2`. Only the `x > 0` and `x = 0` branches are
reachable from `handRotation` (its second argument is an absolute value). -/
noncomputable def atan2 (y x : ℝ) : ℝ :=
  if 0 < x then Real.arctan (y / x)
  else if x < 0 then
    (if 0 ≤ y then Real.arctan (y / x) + Real.pi
     else Real.arctan (y / x) - Real.pi)
  else
    (if 0 < y then Real.pi / 2
     else if y < 0 then -(Real.pi / 2)
     else 0)

/-- The roll computation of the `onResults` callback
(src/components/Particles.tsx:256-290): `dx`/`dy` from index MCP (5) to
pinky MCP (17), `rawAngle = atan2(dy, |dx|)`, negated unless `dx > 0`
(`isRightHand`). -/
noncomputable def handRotation (l : Fin 21 → Pt) : ℝ :=
  if 0 < (l 17).x - (l 5).x then
    atan2 ((l 17).y - (l 5).y) |(l 17).x - (l 5).x|
  else
    -(atan2 ((l 17).y - (l 5).y) |(l 17).x - (l 5).x|)

/-- Mirroring a landmark set: every landmark's x-coordinate is replaced by
`1 - x` (normalized image coordinates), y is unchanged. -/
def mirrorLandmarks (l : Fin 21 → Pt) : Fin 21 → Pt :=
  fun i => ⟨1 - (l i).x, (l i).y⟩

/-- The `hands.onResults` callback (src/components/Particles.tsx:241-304):
with at least one detected hand it emits the classified gesture, palm
position and roll of the first landmark set; with zero hands it emits the
default pose `{gesture: NONE, position: (0,0), rotation: 0}`. Total: it
never throws and always produces an update. -/
noncomputable def onResults (multiHandLandmarks : List (Fin 21 → Pt)) :
    HandControlState :=
  match multiHandLandmarks with
  | l :: _ =>
    { gesture := detectGesture l
      position := handPosition l
      rotation := handRotation l }
  | [] =>
    { gesture := GestureType.NONE
      position := (0, 0)
      rotation := 0 }

/-- A concrete open-hand landmark set for witnesses: wrist and thumb at the
origin, the four fingertips at `x = 1`, the four PIP joints at `x = 0.5`,
all on the x-axis. -/
noncomputable def sampleOpenHand : Fin 21 → Pt :=
  fun i =>
    if i = 8 ∨ i = 12 ∨ i = 16 ∨ i = 20 then ⟨1, 0⟩
    else if i = 6 ∨ i = 10 ∨ i = 14 ∨ i = 18 then ⟨0.5, 0⟩
    else ⟨0, 0⟩

/-- A concrete landmark set with index MCP at the origin and every other
landmark at `(1, 1)` (so `dx = 1 > 0`), for witnesses. -/
noncomputable def sampleHand : Fin 21 → Pt :=
  fun i => if i = 5 then ⟨0, 0⟩ else ⟨1, 1⟩

/-! ## Particle generation (src/utils/geometry.ts, `generateParticles`)

Every `Math.random()` draw is an explicit argument in `[0, 1)`. -/

/-- three.js `MathUtils.lerp`: `(1 - t) * x + t * y`. -/
def mlerp (x y t : ℝ) : ℝ := (1 - t) * x + t * y

/-- `Math.cbrt` on a nonnegative argument, as a real power. -/
noncomputable def cbrt (x : ℝ) : ℝ := x ^ ((1 : ℝ) / 3)

/-- The tree position (`initialPos`) of main-spiral particle `i` from
`generateParticles` (src/utils/geometry.ts:20-49): spiral centerline of
`7.5` turns plus a uniform-in-sphere volumetric offset of radius
`cbrt(w) * tubeRadius * 0.9`, with the vertical offset compressed by 0.6.
The three `Math.random()` draws of the offset are `u`, `v`, `w`. -/
noncomputable def mainTreePos (i : ℕ) (u v w : ℝ) : Vec3 :=
  let turns : ℝ := 7.5
  let t : ℝ := (i : ℝ) / (MAIN_COUNT : ℝ)
  let angle := t * Real.pi * 2 * turns
  let yBase := -TREE_HEIGHT / 2 + t * TREE_HEIGHT
  let spiralRadius := mlerp TREE_RADIUS_BASE 0.1 t
  let cx := Real.cos angle * spiralRadius
  let cz := Real.sin angle * spiralRadius
  let tubeRadius := mlerp 0.9 0.3 t
  let theta := 2 * Real.pi * u
  let phi := Real.arccos (2 * v - 1)
  let r := cbrt w * tubeRadius * 0.9
  let ox := r * Real.sin phi * Real.cos theta
  let oy := r * Real.sin phi * Real.sin theta
  let oz := r * Real.cos phi
  ⟨cx + ox, yBase + oy * 0.6, cz + oz⟩

/-- The tree position (`initialPos`) of a core-filler particle from
`generateParticles` (src/utils/geometry.ts:109-120): random height `t`,
square-root radius bias `ur` inside 70% of the spiral radius, angle draw
`utheta` and vertical jitter draw `uy` (all `Math.random()` draws in
`[0, 1)`). -/
noncomputable def fillerTreePos (t ur utheta uy : ℝ) : Vec3 :=
  let heightPos := -TREE_HEIGHT / 2 + t * TREE_HEIGHT
  let maxRadiusAtHeight := mlerp TREE_RADIUS_BASE 0.1 t * 0.7
  let r := Real.sqrt ur * maxRadiusAtHeight
  let theta := utheta * 2 * Real.pi
  ⟨r * Real.cos theta, heightPos + (uy - 0.5) * 0.5, r * Real.sin theta⟩

/-! ## Photo panel target resolution (src/components/PhotoCloud.tsx) -/

/-- three.js `Quaternion` (fields in three.js order `x, y, z, w`). -/
structure Quat where
  x : ℝ
  y : ℝ
  z : ℝ
  w : ℝ

/-- three.js `Vector3.applyQuaternion`. -/
def quatApply (q : Quat) (v : Vec3) : Vec3 :=
  let tx := 2 * (q.y * v.z - q.z * v.y)
  let ty := 2 * (q.z * v.x - q.x * v.z)
  let tz := 2 * (q.x * v.y - q.y * v.x)
  ⟨v.x + q.w * tx + (q.y * tz - q.z * ty),
   v.y + q.w * ty + (q.z * tx - q.x * tz),
   v.z + q.w * tz + (q.x * ty - q.y * tx)⟩

/-- three.js `Quaternion.setFromEuler` for the default `XYZ` order. -/
noncomputable def quatFromEulerXYZ (ex ey ez : ℝ) : Quat :=
  let c1 := Real.cos (ex / 2)
  let c2 := Real.cos (ey / 2)
  let c3 := Real.cos (ez / 2)
  let s1 := Real.sin (ex / 2)
  let s2 := Real.sin (ey / 2)
  let s3 := Real.sin (ez / 2)
  ⟨s1 * c2 * c3 + c1 * s2 * s3,
   c1 * s2 * c3 - s1 * c2 * s3,
   c1 * c2 * s3 + s1 * s2 * c3,
   c1 * c2 * c3 - s1 * s2 * s3⟩

/-- three.js `Vector3.add`, componentwise. -/
def vadd (a b : Vec3) : Vec3 := ⟨a.x + b.x, a.y + b.y, a.z + b.z⟩

/-- three.js `Vector3.multiplyScalar`, componentwise. -/
def vsmul (c : ℝ) (v : Vec3) : Vec3 := ⟨c * v.x, c * v.y, c * v.z⟩

/-- The per-frame target (position, scale, orientation) of one panel. -/
structure PanelTarget where
  pos : Vec3
  scale : ℝ
  rot : Quat

/-- The target resolution of the `PolaroidFrame` frame callback
(src/components/PhotoCloud.tsx:113-159): the defaults are
`targetPos = treePos`, `targetScale = 0.65`; the `isFocused` branch anchors
the panel to the live camera pose (`cameraPos + forward*5 + up*0.8`, scale
2.5, orientation copied from the camera); the `SCATTERED` branch uses the
panel's fixed scatter slot `randomPos`, scale 1.0 and a slow time yaw; the
remaining (tree) branch keeps the defaults and faces outward from the tree
axis with a per-panel tilt and time wobble. -/
noncomputable def resolvePanel (appState : AppState) (isFocused : Bool)
    (treePos randomPos : Vec3) (index : ℕ) (time : ℝ)
    (cameraPos : Vec3) (cameraQuat : Quat) : PanelTarget :=
  if isFocused then
    let forward := quatApply cameraQuat ⟨0, 0, -1⟩
    let up := quatApply cameraQuat ⟨0, 1, 0⟩
    { pos := vadd (vadd cameraPos (vsmul 5 forward)) (vsmul 0.8 up)
      scale := 2.5
      rot := cameraQuat }
  else if appState = AppState.SCATTERED then
    { pos := randomPos
      scale := 1.0
      rot := quatFromEulerXYZ 0 (time * 0.1) 0 }
  else
    { pos := treePos
      scale := 0.65
      rot := quatFromEulerXYZ (Real.sin ((index : ℝ) * 123) * 0.1)
        (atan2 treePos.x treePos.z)
        (Real.sin (time + (index : ℝ)) * 0.05) }

/-- The resolution of panel `index` as instantiated by `PhotoCloud`
(src/components/PhotoCloud.tsx:202-216): the panel is focused exactly when
`appState == FOCUSED && index == activeIndex`. -/
noncomputable def resolvePanelFor (appState : AppState)
    (index activeIndex : ℕ) (treePos randomPos : Vec3) (time : ℝ)
    (cameraPos : Vec3) (cameraQuat : Quat) : PanelTarget :=
  resolvePanel appState
    (decide (appState = AppState.FOCUSED ∧ index = activeIndex))
    treePos randomPos index time cameraPos cameraQuat

/-! ## Theorems -/

/-- C1: For every scene mode and panel count, one gesture update transitions
the mode as follows: `FIST` sets the mode to `ASSEMBLED` from any state;
`OPEN_PALM` while in `ASSEMBLED` or `FOCUSED` sets it to `SCATTERED`;
`PINCH` while in `SCATTERED` with at least one photo panel sets it to
`FOCUSED` without resetting the active photo index; every other mode/gesture
combination (`NONE` in any state, `OPEN_PALM` in `SCATTERED`, `PINCH` in
`ASSEMBLED` or `FOCUSED`, `PINCH` in `SCATTERED` with zero panels) leaves the
mode unchanged. -/
theorem gesture_state_machine (appState : AppState) (idx : ℤ) (n : ℕ) :
    (gestureUpdate GestureType.FIST appState idx n).1 = AppState.ASSEMBLED ∧
    (gestureUpdate GestureType.OPEN_PALM AppState.ASSEMBLED idx n).1 =
      AppState.SCATTERED ∧
    (gestureUpdate GestureType.OPEN_PALM AppState.FOCUSED idx n).1 =
      AppState.SCATTERED ∧
    gestureUpdate GestureType.PINCH AppState.SCATTERED idx (n + 1) =
      (AppState.FOCUSED, idx) ∧
    (gestureUpdate GestureType.NONE appState idx n).1 = appState ∧
    (gestureUpdate GestureType.OPEN_PALM AppState.SCATTERED idx n).1 =
      AppState.SCATTERED ∧
    (gestureUpdate GestureType.PINCH AppState.ASSEMBLED idx n).1 =
      AppState.ASSEMBLED ∧
    (gestureUpdate GestureType.PINCH AppState.FOCUSED idx n).1 =
      AppState.FOCUSED ∧
    (gestureUpdate GestureType.PINCH AppState.SCATTERED idx 0).1 =
      AppState.SCATTERED ∧
    (∀ g : GestureType, (gestureUpdate g appState idx n).2 = idx) := by
  cases appState <;>
    simp [gestureUpdate, nextAppState]

/-- Helper: truncated remainder of a nonnegative dividend by a positive
divisor lies in `[0, b)`. -/
lemma tmod_bounds (a b : ℤ) (ha : 0 ≤ a) (hb : 0 < b) :
    0 ≤ Int.tmod a b ∧ Int.tmod a b < b := by
  rw [Int.tmod_eq_emod ha (le_of_lt hb)]
  exact ⟨Int.emod_nonneg a (by omega), Int.emod_lt_of_pos a hb⟩

/-- C4: While the mode is `FOCUSED` and `photoCount > 1`, the active photo
index changes only when more than the 0.8s cooldown has elapsed since the
last switch: rotation below `-0.4` decrements the index modulo `photoCount`,
rotation above `+0.4` increments it modulo `photoCount`, otherwise it is
unchanged; the cooldown timer is reset (to the current time) exactly on a
change; and the index always remains an integer in `[0, photoCount)` — in
particular decrementing from index 0 with 3 panels yields index 2 (see the
witness). -/
theorem carousel_spec (photoCount : ℕ) (rot time lastSwitchTime : ℝ)
    (idx : ℤ) (hc : 1 < photoCount) (h0 : 0 ≤ idx)
    (h1 : idx < (photoCount : ℤ)) :
    (time - lastSwitchTime ≤ 0.8 →
      carouselStep AppState.FOCUSED photoCount rot time lastSwitchTime idx =
        (idx, lastSwitchTime)) ∧
    (0.8 < time - lastSwitchTime → rot < -0.4 →
      carouselStep AppState.FOCUSED photoCount rot time lastSwitchTime idx =
        (Int.tmod (idx - 1 + photoCount) photoCount, time)) ∧
    (0.8 < time - lastSwitchTime → 0.4 < rot →
      carouselStep AppState.FOCUSED photoCount rot time lastSwitchTime idx =
        (Int.tmod (idx + 1) photoCount, time)) ∧
    (0.8 < time - lastSwitchTime → -0.4 ≤ rot → rot ≤ 0.4 →
      carouselStep AppState.FOCUSED photoCount rot time lastSwitchTime idx =
        (idx, lastSwitchTime)) ∧
    (0 ≤ (carouselStep AppState.FOCUSED photoCount rot time
        lastSwitchTime idx).1 ∧
      (carouselStep AppState.FOCUSED photoCount rot time
        lastSwitchTime idx).1 < (photoCount : ℤ)) ∧
    (∀ s : AppState, s ≠ AppState.FOCUSED →
      carouselStep s photoCount rot time lastSwitchTime idx =
        (idx, lastSwitchTime)) := by
  have hcz : (1 : ℤ) < (photoCount : ℤ) := by exact_mod_cast hc
  refine ⟨?_, ?_, ?_, ?_, ?_, ?_⟩
  · intro h
    simp [carouselStep, hc, not_lt.mpr h]
  · intro h hrot
    simp [carouselStep, hc, h, hrot]
  · intro h hrot
    have hnot : ¬ rot < -0.4 := by linarith
    simp [carouselStep, hc, h, hnot, hrot]
  · intro h hr1 hr2
    have hnot : ¬ rot < -0.4 := by linarith
    have hnot2 : ¬ (0.4 : ℝ) < rot := by linarith
    simp [carouselStep, hc, h, hnot, hnot2]
  · unfold carouselStep
    split_ifs with hA hB hC hD
    · exact tmod_bounds _ _ (by omega) (by omega)
    · exact tmod_bounds _ _ (by omega) (by omega)
    · exact ⟨h0, h1⟩
    · exact ⟨h0, h1⟩
    · exact ⟨h0, h1⟩
  · intro s hs
    simp [carouselStep, hs]

/-- C4 witness: the spec's wrap example — in `FOCUSED` mode with 3 panels,
rotation `-0.5` and an expired cooldown, index 0 wraps to 2 and the timer is
reset to the current time. -/
theorem carousel_spec_witness :
    (1 : ℕ) < 3 ∧ (0 : ℤ) ≤ 0 ∧ (0 : ℤ) < ((3 : ℕ) : ℤ) ∧
    carouselStep AppState.FOCUSED 3 (-0.5) 1 0 0 =
      (Int.tmod (0 - 1 + 3) 3, 1) ∧
    Int.tmod ((0 : ℤ) - 1 + 3) 3 = 2 := by
  have h := carousel_spec 3 (-0.5) 1 0 0 (by norm_num) (by norm_num)
    (by norm_num)
  exact ⟨by norm_num, le_refl 0, by norm_num,
    h.2.1 (by norm_num) (by norm_num), by decide⟩

/-- Helper: closed form of the iterated easing —
`easeIter k dt target cur n - target = (cur - target) * (1 - k*dt)^n`. -/
lemma easeIter_sub_target (k dt target cur : ℚ) (n : ℕ) :
    easeIter k dt target cur n - target =
      (cur - target) * (1 - k * dt) ^ n := by
  induction n with
  | zero => simp [easeIter]
  | succ n ih =>
    have hstep : easeIter k dt target cur (n + 1) =
        easeStep k dt (easeIter k dt target cur n) target := rfl
    have hval : easeIter k dt target cur n =
        target + (cur - target) * (1 - k * dt) ^ n := by linarith
    rw [hstep, easeStep, hval, pow_succ]
    ring

/-- C7 counterexample: the claim asserts no overshoot for every constant
`Δt > 0`, but with the particle rate `k = 3` and `Δt = 1` one easing step
from 0 toward target 1 jumps to 3 — past the target and farther from it than
the starting point. -/
theorem ease_overshoot_counterexample :
    easeStep particleEaseRate 1 0 1 = 3 ∧
    (1 : ℚ) < easeStep particleEaseRate 1 0 1 ∧
    |(0 : ℚ) - 1| < |easeStep particleEaseRate 1 0 1 - 1| := by
  norm_num [easeStep, particleEaseRate]

/-- C7 (amended): for the per-frame easing
`current = lerp(current, target, k·Δt)` with `k = 3` for particles and
`k = 4` for photo panels, with the target held fixed and repeated steps of
any constant `Δt > 0` *satisfying `k·Δt ≤ 1`*, the live value monotonically
approaches the target and never overshoots it (it stays between the starting
value and the target); and once current equals target, every further step
leaves it unchanged — the idempotence conjuncts hold for every frame time
`dt2`, with no constraint (in particular also when `k·dt2 > 1`). -/
theorem ease_no_overshoot (k dt cur target : ℚ)
    (hk : k = particleEaseRate ∨ k = photoEaseRate)
    (hdt : 0 < dt) (hstep : k * dt ≤ 1) :
    (∀ n, |easeIter k dt target cur (n + 1) - target| ≤
      |easeIter k dt target cur n - target|) ∧
    (∀ n, min cur target ≤ easeIter k dt target cur n ∧
      easeIter k dt target cur n ≤ max cur target) ∧
    (∀ dt2 : ℚ, easeStep k dt2 target target = target) ∧
    (∀ dt2 : ℚ, ∀ n, easeIter k dt2 target target n = target) := by
  have hk0 : 0 < k := by
    rcases hk with h | h <;> rw [h] <;>
      norm_num [particleEaseRate, photoEaseRate]
  have hq0 : 0 ≤ 1 - k * dt := by linarith
  have hq1 : 1 - k * dt < 1 := by nlinarith
  refine ⟨?_, ?_, ?_, ?_⟩
  · intro n
    rw [easeIter_sub_target, easeIter_sub_target, pow_succ, ← mul_assoc,
      abs_mul]
    have habs : |1 - k * dt| ≤ 1 := abs_le.mpr ⟨by linarith, by linarith⟩
    calc |(cur - target) * (1 - k * dt) ^ n| * |1 - k * dt|
        ≤ |(cur - target) * (1 - k * dt) ^ n| * 1 :=
          mul_le_mul_of_nonneg_left habs (abs_nonneg _)
      _ = |(cur - target) * (1 - k * dt) ^ n| := mul_one _
  · intro n
    have hval : easeIter k dt target cur n =
        target + (cur - target) * (1 - k * dt) ^ n := by
      have := easeIter_sub_target k dt target cur n
      linarith
    have hp0 : 0 ≤ (1 - k * dt) ^ n := pow_nonneg hq0 n
    have hp1 : (1 - k * dt) ^ n ≤ 1 := pow_le_one₀ hq0 (by linarith)
    rcases le_total cur target with h | h
    · rw [min_eq_left h, max_eq_right h, hval]
      constructor <;> nlinarith
    · rw [min_eq_right h, max_eq_left h, hval]
      constructor <;> nlinarith
  · intro dt2
    simp [easeStep]
  · intro dt2 n
    have := easeIter_sub_target k dt2 target target n
    simp at this
    linarith

/-- C7 witness: with the particle rate `k = 3` and `Δt = 1/4` (so
`k·Δt = 3/4 ≤ 1`), one step from 0 toward 1 does not move away from the
target; and a step or five iterated steps at the target stay put even for
`Δt = 1`, where `k·Δt = 3 > 1`. -/
theorem ease_no_overshoot_witness :
    ((3 : ℚ) = particleEaseRate ∨ (3 : ℚ) = photoEaseRate) ∧
    (0 : ℚ) < 1/4 ∧ (3 : ℚ) * (1/4) ≤ 1 ∧
    |easeIter 3 (1/4) 1 0 1 - 1| ≤ |easeIter 3 (1/4) 1 0 0 - 1| ∧
    easeStep 3 1 1 1 = 1 ∧
    easeIter 3 1 1 1 5 = 1 := by
  have h := ease_no_overshoot 3 (1/4) 0 1
    (Or.inl (by norm_num [particleEaseRate])) (by norm_num) (by norm_num)
  exact ⟨Or.inl (by norm_num [particleEaseRate]), by norm_num, by norm_num,
    h.1 0, h.2.2.1 1, h.2.2.2 1 5⟩

/-- C2: The layout resolver for particles is a pure function of its
arguments: for every particle `p`, `getTargetPosition p ASSEMBLED` is `p`'s
tree position (`initialPos`), and `getTargetPosition p SCATTERED` and
`getTargetPosition p FOCUSED` both equal `p`'s scatter position. -/
theorem getTargetPosition_spec (p : ParticleData) :
    getTargetPosition p AppState.ASSEMBLED = p.initialPos ∧
    getTargetPosition p AppState.SCATTERED = p.scatterPos ∧
    getTargetPosition p AppState.FOCUSED = p.scatterPos := by
  refine ⟨?_, ?_, ?_⟩ <;> simp [getTargetPosition]

/-- Helper: the distance of two landmarks on the x-axis is the absolute
difference of their x-coordinates. -/
lemma distPt_xaxis (a b : ℝ) : distPt ⟨a, 0⟩ ⟨b, 0⟩ = |a - b| := by
  unfold distPt
  norm_num [Real.sqrt_sq_eq_abs]

/-- C5: For every 21-landmark input, the classifier returns `PINCH` iff the
thumb-tip/index-tip distance is strictly below 0.05 (so distance exactly 0
yields `PINCH`, and this test overrides all others); otherwise it returns
`OPEN_PALM` when at least 3 of the four non-thumb fingers are extended,
`FIST` when at most 1 is, and `NONE` when exactly 2 are. -/
theorem detectGesture_spec (l : Fin 21 → Pt) :
    (detectGesture l = GestureType.PINCH ↔ distPt (l 4) (l 8) < 0.05) ∧
    (distPt (l 4) (l 8) = 0 → detectGesture l = GestureType.PINCH) ∧
    (0.05 ≤ distPt (l 4) (l 8) →
      (3 ≤ extendedCount l → detectGesture l = GestureType.OPEN_PALM) ∧
      (extendedCount l ≤ 1 → detectGesture l = GestureType.FIST) ∧
      (extendedCount l = 2 → detectGesture l = GestureType.NONE)) := by
  by_cases hp : distPt (l 4) (l 8) < 0.05
  · exact ⟨by simp [detectGesture, hp], fun _ => by simp [detectGesture, hp],
      fun h => absurd hp (not_lt.mpr h)⟩
  · have hd : detectGesture l =
        if 3 ≤ extendedCount l then GestureType.OPEN_PALM
        else if extendedCount l ≤ 1 then GestureType.FIST
        else GestureType.NONE := by
      simp [detectGesture, hp]
    refine ⟨?_, ?_, ?_⟩
    · constructor
      · intro hP
        rw [hd] at hP
        split_ifs at hP
      · intro hlt
        exact absurd hlt hp
    · intro h0
      exact absurd (by rw [h0]; norm_num) hp
    · intro _
      refine ⟨fun h3 => by rw [hd, if_pos h3], fun h1 => ?_, fun h2 => ?_⟩
      · rw [hd, if_neg (by omega), if_pos h1]
      · rw [hd, if_neg (by omega), if_neg (by omega)]

/-- C5 witness: on the concrete open-hand landmark set the pinch distance is
1 (≥ 0.05), all four fingers test as extended, and the classifier returns
`OPEN_PALM`. -/
theorem detectGesture_spec_witness :
    (0.05 : ℝ) ≤ distPt (sampleOpenHand 4) (sampleOpenHand 8) ∧
    extendedCount sampleOpenHand = 4 ∧
    detectGesture sampleOpenHand = GestureType.OPEN_PALM := by
  have h0 : sampleOpenHand 0 = ⟨0, 0⟩ := rfl
  have h4 : sampleOpenHand 4 = ⟨0, 0⟩ := rfl
  have h6 : sampleOpenHand 6 = ⟨0.5, 0⟩ := rfl
  have h8 : sampleOpenHand 8 = ⟨1, 0⟩ := rfl
  have h10 : sampleOpenHand 10 = ⟨0.5, 0⟩ := rfl
  have h12 : sampleOpenHand 12 = ⟨1, 0⟩ := rfl
  have h14 : sampleOpenHand 14 = ⟨0.5, 0⟩ := rfl
  have h16 : sampleOpenHand 16 = ⟨1, 0⟩ := rfl
  have h18 : sampleOpenHand 18 = ⟨0.5, 0⟩ := rfl
  have h20 : sampleOpenHand 20 = ⟨1, 0⟩ := rfl
  have hd48 : distPt (sampleOpenHand 4) (sampleOpenHand 8) = 1 := by
    rw [h4, h8, distPt_xaxis]
    norm_num
  have hge : (0.05 : ℝ) ≤ distPt (sampleOpenHand 4) (sampleOpenHand 8) := by
    rw [hd48]; norm_num
  have hcond : distPt ⟨(1 : ℝ), 0⟩ ⟨(0 : ℝ), 0⟩ >
      distPt ⟨(0.5 : ℝ), 0⟩ ⟨(0 : ℝ), 0⟩ + 0.05 := by
    rw [distPt_xaxis, distPt_xaxis, sub_zero, sub_zero,
      abs_of_nonneg (by norm_num : (0 : ℝ) ≤ 1),
      abs_of_nonneg (by norm_num : (0 : ℝ) ≤ 0.5)]
    norm_num
  have hext : extendedCount sampleOpenHand = 4 := by
    unfold extendedCount
    rw [h0, h6, h8, h10, h12, h14, h16, h18, h20]
    rw [if_pos hcond]
  refine ⟨hge, hext, ?_⟩
  exact ((detectGesture_spec sampleOpenHand).2.2 hge).1
    (by rw [hext]; norm_num)

/-- C8: For every landmark set whose index MCP (5) and pinky MCP (17) have
distinct x-coordinates, the emitted roll equals `atan2(dy, |dx|)` negated
exactly when `dx < 0`; mirroring every landmark's x-coordinate (`x → 1 - x`)
negates the emitted rotation while preserving its magnitude. -/
theorem handRotation_spec (l : Fin 21 → Pt) (h : (l 17).x ≠ (l 5).x) :
    handRotation l =
      (if (l 17).x - (l 5).x < 0 then
        -(atan2 ((l 17).y - (l 5).y) |(l 17).x - (l 5).x|)
      else atan2 ((l 17).y - (l 5).y) |(l 17).x - (l 5).x|) ∧
    handRotation (mirrorLandmarks l) = -(handRotation l) ∧
    |handRotation (mirrorLandmarks l)| = |handRotation l| := by
  have hdx : (l 17).x - (l 5).x ≠ 0 := sub_ne_zero.mpr h
  have hmd : (mirrorLandmarks l 17).x - (mirrorLandmarks l 5).x =
      -((l 17).x - (l 5).x) := by
    simp [mirrorLandmarks]
  have hmy : (mirrorLandmarks l 17).y - (mirrorLandmarks l 5).y =
      (l 17).y - (l 5).y := by
    simp [mirrorLandmarks]
  have hmir : handRotation (mirrorLandmarks l) = -(handRotation l) := by
    unfold handRotation
    rw [hmd, hmy, abs_neg]
    rcases lt_or_gt_of_ne hdx with hneg | hpos
    · have hA : 0 < -((l 17).x - (l 5).x) := by linarith
      have hB : ¬ 0 < (l 17).x - (l 5).x := by linarith
      rw [if_pos hA, if_neg hB]
      ring
    · have hA : ¬ 0 < -((l 17).x - (l 5).x) := by linarith
      rw [if_neg hA, if_pos hpos]
  refine ⟨?_, hmir, by rw [hmir]; exact abs_neg _⟩
  unfold handRotation
  rcases lt_or_gt_of_ne hdx with hneg | hpos
  · have hB : ¬ 0 < (l 17).x - (l 5).x := by linarith
    rw [if_neg hB, if_pos hneg]
  · have hC : ¬ (l 17).x - (l 5).x < 0 := by linarith
    rw [if_pos hpos, if_neg hC]

/-- C8 witness: on the concrete landmark set with `dx = 1 ≠ 0`, mirroring
negates the emitted rotation. -/
theorem handRotation_spec_witness :
    (sampleHand 17).x ≠ (sampleHand 5).x ∧
    handRotation (mirrorLandmarks sampleHand) = -(handRotation sampleHand) := by
  have hne : (sampleHand 17).x ≠ (sampleHand 5).x := by
    have h17 : sampleHand 17 = ⟨1, 1⟩ := rfl
    have h5 : sampleHand 5 = ⟨0, 0⟩ := rfl
    rw [h17, h5]
    norm_num
  exact ⟨hne, (handRotation_spec sampleHand hne).2.1⟩

/-- C9: Whenever the vision collaborator reports zero detected hands, the
callback emits exactly the default pose
`{gesture: NONE, position: (0, 0), rotation: 0}`; `onResults` is a total
function, so it neither raises nor skips the update. -/
theorem onResults_no_hand :
    onResults [] =
      { gesture := GestureType.NONE, position := (0, 0), rotation := 0 } :=
  rfl

/-- C10: Whenever a hand is detected, the emitted position is derived from
landmark 9 by `x = (1 - raw.x) * 2 - 1` and `y = (1 - raw.y) * 2 - 1`; in
particular a raw image y-coordinate of 0 (top of frame) maps to
`position.y = 1`. -/
theorem handPosition_spec (l : Fin 21 → Pt) (rest : List (Fin 21 → Pt)) :
    (onResults (l :: rest)).position =
      ((1 - (l 9).x) * 2 - 1, (1 - (l 9).y) * 2 - 1) ∧
    ((l 9).y = 0 → (onResults (l :: rest)).position.2 = 1) := by
  constructor
  · rfl
  · intro h
    show (1 - (l 9).y) * 2 - 1 = 1
    rw [h]
    norm_num

/-- C10 witness: the open-hand sample has landmark 9 at the origin
(`raw.y = 0`), and the emitted `position.y` is 1. -/
theorem handPosition_spec_witness :
    (sampleOpenHand 9).y = 0 ∧
    (onResults [sampleOpenHand]).position.2 = 1 :=
  ⟨rfl, (handPosition_spec sampleOpenHand []).2 rfl⟩

/-- Helper: the y-component of a main-spiral tree position, written out. -/
lemma mainTreePos_y (i : ℕ) (u v w : ℝ) :
    (mainTreePos i u v w).y =
      (-TREE_HEIGHT / 2 + (i : ℝ) / (MAIN_COUNT : ℝ) * TREE_HEIGHT) +
        cbrt w * mlerp 0.9 0.3 ((i : ℝ) / (MAIN_COUNT : ℝ)) * 0.9 *
          Real.sin (Real.arccos (2 * v - 1)) * Real.sin (2 * Real.pi * u) *
          0.6 := rfl

/-- Helper: the y-component of a core-filler tree position, written out. -/
lemma fillerTreePos_y (t ur utheta uy : ℝ) :
    (fillerTreePos t ur utheta uy).y =
      (-TREE_HEIGHT / 2 + t * TREE_HEIGHT) + (uy - 0.5) * 0.5 := rfl

/-- C6 counterexample: the core-filler particle generated with all four
random draws equal to 0 has tree-position y-coordinate -5.25, strictly
below the claimed lower bound -TREE_HEIGHT/2 = -5. -/
theorem fillerTreePos_y_counterexample :
    (fillerTreePos 0 0 0 0).y = -5.25 ∧
    (fillerTreePos 0 0 0 0).y < -(TREE_HEIGHT / 2) := by
  rw [fillerTreePos_y]
  norm_num [TREE_HEIGHT]

/-- C6 (amended): for every generated particle and every outcome of the
random draws (each in `[0, 1)`), the tree-position y-coordinate lies within
`[-TREE_HEIGHT/2 - 0.486, TREE_HEIGHT/2 + 0.25]`, i.e. `[-5.486, 5.25]`:
main-spiral particles stay within `0.54 * tubeRadius ≤ 0.486` of the
centerline height `-5 + 10·t`, and core fillers stay within `0.25` of their
random height.  The original bound `[-height/2, height/2]` does not hold
(see the counterexample). -/
theorem treePos_y_amended :
    (∀ (i : ℕ) (u v w : ℝ), i < MAIN_COUNT → 0 ≤ w → w < 1 →
      -5.486 ≤ (mainTreePos i u v w).y ∧ (mainTreePos i u v w).y ≤ 5.25) ∧
    (∀ t ur utheta uy : ℝ, 0 ≤ t → t < 1 → 0 ≤ uy → uy < 1 →
      -5.25 ≤ (fillerTreePos t ur utheta uy).y ∧
        (fillerTreePos t ur utheta uy).y < 5.25) := by
  constructor
  · intro i u v w hi hw0 hw1
    rw [mainTreePos_y]
    have hmc : (MAIN_COUNT : ℝ) = 1800 := by
      norm_num [MAIN_COUNT, PARTICLE_COUNT, FILLER_COUNT]
    rw [hmc]
    set t : ℝ := (i : ℝ) / 1800 with htdef
    have ht0 : 0 ≤ t := by positivity
    have ht1 : t ≤ 1 := by
      rw [htdef, div_le_one (by norm_num)]
      have : (i : ℝ) < 1800 := by
        have : i < 1800 := by
          simpa [MAIN_COUNT, PARTICLE_COUNT, FILLER_COUNT] using hi
        exact_mod_cast this
      linarith
    have htube : mlerp 0.9 0.3 t = 0.9 - 0.6 * t := by
      unfold mlerp; ring
    rw [htube]
    have htub0 : (0 : ℝ) ≤ 0.9 - 0.6 * t := by linarith
    have hcb0 : 0 ≤ cbrt w := Real.rpow_nonneg hw0 _
    have hcb1 : cbrt w ≤ 1 := Real.rpow_le_one hw0 (le_of_lt hw1) (by norm_num)
    set s1 : ℝ := Real.sin (Real.arccos (2 * v - 1))
    set s2 : ℝ := Real.sin (2 * Real.pi * u)
    have hs1 : |s1| ≤ 1 := abs_le.mpr ⟨Real.neg_one_le_sin _, Real.sin_le_one _⟩
    have hs2 : |s2| ≤ 1 := abs_le.mpr ⟨Real.neg_one_le_sin _, Real.sin_le_one _⟩
    have hA0 : 0 ≤ cbrt w * (0.9 - 0.6 * t) * 0.9 :=
      mul_nonneg (mul_nonneg hcb0 htub0) (by norm_num)
    have h12 : |s1| * |s2| ≤ 1 := by
      nlinarith [abs_nonneg s1, abs_nonneg s2]
    have hsplit : |cbrt w * (0.9 - 0.6 * t) * 0.9 * s1 * s2 * 0.6| =
        cbrt w * (0.9 - 0.6 * t) * 0.9 * (|s1| * |s2|) * 0.6 := by
      rw [abs_mul, abs_mul, abs_mul, abs_of_nonneg hA0,
        abs_of_nonneg (by norm_num : (0 : ℝ) ≤ 0.6)]
      ring
    have hkey : |cbrt w * (0.9 - 0.6 * t) * 0.9 * s1 * s2 * 0.6| ≤
        (0.9 - 0.6 * t) * 0.54 := by
      rw [hsplit]
      nlinarith [mul_nonneg (sub_nonneg.mpr hcb1) htub0,
        mul_nonneg hA0 (mul_nonneg (abs_nonneg s1) (abs_nonneg s2))]
    rcases abs_le.mp hkey with ⟨hlo, hhi⟩
    constructor
    · have : (-TREE_HEIGHT / 2 + t * TREE_HEIGHT) = -5 + t * 10 := by
        norm_num [TREE_HEIGHT]
      rw [this]
      nlinarith
    · have : (-TREE_HEIGHT / 2 + t * TREE_HEIGHT) = -5 + t * 10 := by
        norm_num [TREE_HEIGHT]
      rw [this]
      nlinarith
  · intro t ur utheta uy ht0 ht1 hy0 hy1
    rw [fillerTreePos_y]
    have : (-TREE_HEIGHT / 2 + t * TREE_HEIGHT) = -5 + t * 10 := by
      norm_num [TREE_HEIGHT]
    rw [this]
    constructor <;> nlinarith

/-- C6 witness: the amended bound evaluated at main-spiral particle 0 and at
a core-filler particle, with all random draws 0. -/
theorem treePos_y_amended_witness :
    ((0 : ℕ) < MAIN_COUNT ∧ (0 : ℝ) ≤ 0 ∧ (0 : ℝ) < 1) ∧
    (-5.486 ≤ (mainTreePos 0 0 0 0).y ∧ (mainTreePos 0 0 0 0).y ≤ 5.25) ∧
    (-5.25 ≤ (fillerTreePos 0 0 0 0).y ∧ (fillerTreePos 0 0 0 0).y < 5.25) := by
  refine ⟨⟨?_, le_rfl, by norm_num⟩, ?_, ?_⟩
  · norm_num [MAIN_COUNT, PARTICLE_COUNT, FILLER_COUNT]
  · exact treePos_y_amended.1 0 0 0 0
      (by norm_num [MAIN_COUNT, PARTICLE_COUNT, FILLER_COUNT]) le_rfl
      (by norm_num)
  · exact treePos_y_amended.2 0 0 0 0 le_rfl (by norm_num) le_rfl
      (by norm_num)

/-- C3 counterexample: with two panels in `FOCUSED` mode, the non-active
panel (index 1, active index 0) resolves to the tree slot position with the
small scale 0.65 — not to its scatter slot with the medium scale 1.0 that
`SCATTERED` mode yields at the same inputs. -/
theorem focused_nonactive_counterexample :
    (resolvePanelFor AppState.FOCUSED 1 0 ⟨1, 0, 0⟩ ⟨2, 0, 0⟩ 0 ⟨0, 0, 0⟩
      ⟨0, 0, 0, 1⟩).scale = 0.65 ∧
    (resolvePanelFor AppState.FOCUSED 1 0 ⟨1, 0, 0⟩ ⟨2, 0, 0⟩ 0 ⟨0, 0, 0⟩
      ⟨0, 0, 0, 1⟩).pos = ⟨1, 0, 0⟩ ∧
    (resolvePanelFor AppState.SCATTERED 1 0 ⟨1, 0, 0⟩ ⟨2, 0, 0⟩ 0 ⟨0, 0, 0⟩
      ⟨0, 0, 0, 1⟩).scale = 1 ∧
    (resolvePanelFor AppState.SCATTERED 1 0 ⟨1, 0, 0⟩ ⟨2, 0, 0⟩ 0 ⟨0, 0, 0⟩
      ⟨0, 0, 0, 1⟩).pos = ⟨2, 0, 0⟩ ∧
    (0.65 : ℝ) ≠ 1 ∧ (⟨1, 0, 0⟩ : Vec3) ≠ ⟨2, 0, 0⟩ := by
  refine ⟨?_, ?_, ?_, ?_, by norm_num, ?_⟩
  · simp [resolvePanelFor, resolvePanel]
  · simp [resolvePanelFor, resolvePanel]
  · simp [resolvePanelFor, resolvePanel]
    norm_num
  · simp [resolvePanelFor, resolvePanel]
  · intro h
    have := congrArg Vec3.x h
    norm_num at this

/-- C3 (amended): while the scene mode is `FOCUSED`, every photo panel other
than the active one resolves its per-frame target exactly as it would in
`ASSEMBLED` (tree) mode: target position is the panel's fixed tree/spiral
slot, target orientation faces outward from the tree axis with a per-panel
tilt and slow time wobble, and target scale is the fixed small constant
0.65. -/
theorem focused_nonactive_as_assembled (index activeIndex : ℕ)
    (treePos randomPos : Vec3) (time : ℝ) (cameraPos : Vec3)
    (cameraQuat : Quat) (h : index ≠ activeIndex) :
    resolvePanelFor AppState.FOCUSED index activeIndex treePos randomPos
        time cameraPos cameraQuat =
      resolvePanelFor AppState.ASSEMBLED index activeIndex treePos randomPos
        time cameraPos cameraQuat ∧
    (resolvePanelFor AppState.FOCUSED index activeIndex treePos randomPos
        time cameraPos cameraQuat).pos = treePos ∧
    (resolvePanelFor AppState.FOCUSED index activeIndex treePos randomPos
        time cameraPos cameraQuat).scale = 0.65 := by
  have hdec : decide (AppState.FOCUSED = AppState.FOCUSED ∧
      index = activeIndex) = false := by simp [h]
  have hdec2 : decide (AppState.ASSEMBLED = AppState.FOCUSED ∧
      index = activeIndex) = false := by simp
  unfold resolvePanelFor
  rw [hdec, hdec2]
  unfold resolvePanel
  simp

/-- C3 witness: the amended statement at concrete inputs (panel 1, active
index 0). -/
theorem focused_nonactive_as_assembled_witness :
    (1 : ℕ) ≠ 0 ∧
    resolvePanelFor AppState.FOCUSED 1 0 ⟨1, 0, 0⟩ ⟨2, 0, 0⟩ 0 ⟨0, 0, 0⟩
        ⟨0, 0, 0, 1⟩ =
      resolvePanelFor AppState.ASSEMBLED 1 0 ⟨1, 0, 0⟩ ⟨2, 0, 0⟩ 0 ⟨0, 0, 0⟩
        ⟨0, 0, 0, 1⟩ :=
  ⟨one_ne_zero,
    (focused_nonactive_as_assembled 1 0 ⟨1, 0, 0⟩ ⟨2, 0, 0⟩ 0 ⟨0, 0, 0⟩
      ⟨0, 0, 0, 1⟩ one_ne_zero).1⟩

end Shendanshu
